import Mathlib

/-!
Shallow embedding of the NBAAverageHeight repository (files `p.py` and
`AfterSeasonsCacheisFullRunThis.py`) and proofs about its claims.

Modelling conventions:
* Python strings are embedded as `List Char` (`PyStr`); `Option String`
  models a value that may not be a string (`none` = non-string input).
* Python `float` values that may be NaN are embedded as `PyFloat := Option ℚ`
  with `none` playing the role of NaN; a Python `float | None` result is
  `Option PyFloat` (outer `none` = Python `None`).
* The durable file caches are embedded as abstract key-value state
  (`Nat → Option _`). A stored nonempty roster reads back unchanged; a
  stored empty roster models the blank file that `pd.DataFrame().to_csv`
  writes in `p.py`, whose later `pd.read_csv` raises `EmptyDataError`, so
  the `p.py` roster getter returns `Except` with `Except.error` for that
  uncaught raise. (The other script always writes a four-column header, so
  its read-back never raises.)
* Network collaborators are oracles carried in an environment record; each
  getter also reports how many network calls and how many durable writes it
  performed, so idempotence claims are statable.
-/

abbrev PyStr := List Char

/-- ASCII decimal digit test, used by the model of Python `int(...)`. -/
def isDigitC (c : Char) : Bool := 48 ≤ c.toNat && c.toNat ≤ 57

/-- Whitespace stripped by Python `int(...)`. -/
def isPySpace (c : Char) : Bool := c == ' ' || c == '\t' || c == '\n' || c == '\r'

/-- Value of a digit string, most significant digit first. -/
def digitsVal (s : PyStr) : Nat := s.foldl (fun a c => 10 * a + (c.toNat - 48)) 0

/-- Parse a nonempty all-digit string. -/
def parseDigits (s : PyStr) : Option Nat :=
  if !s.isEmpty && s.all isDigitC then some (digitsVal s) else none

/-- Strip leading and trailing whitespace, as Python `int(...)` does. -/
def pyStrip (s : PyStr) : PyStr :=
  ((s.dropWhile isPySpace).reverse.dropWhile isPySpace).reverse

/-- Sign handling of Python `int(...)` on an already-stripped string. -/
def pyIntCore (s : PyStr) : Option Int :=
  match s with
  | [] => none
  | c :: cs =>
    if c = '+' then (parseDigits cs).map (fun n : Nat => (n : Int))
    else if c = '-' then (parseDigits cs).map (fun n : Nat => -(n : Int))
    else (parseDigits (c :: cs)).map (fun n : Nat => (n : Int))

/-- Model of Python `int(s)` on a string, returning `none` where Python raises. -/
def pyInt (s : PyStr) : Option Int := pyIntCore (pyStrip s)

/-- Prepend a character to the first piece of a split result. -/
def consHead (c : Char) : List PyStr → List PyStr
  | [] => [[c]]
  | p :: ps => (c :: p) :: ps

/-- Model of Python `s.split(sep)` for a one-character separator. -/
def splitChar (sep : Char) : PyStr → List PyStr
  | [] => [[]]
  | c :: cs =>
    if c = sep then [] :: splitChar sep cs
    else consHead c (splitChar sep cs)

/-- `height_to_inches` from `p.py`: parse a `"<feet>-<inches>"` height text.
`none` input models a non-string (the `isinstance` guard); every failure of
the Python body (`split` unpacking, `int(...)`) is the `none` result. -/
def height_to_inches : Option String → Option Int
  | none => none
  | some h =>
    if '-' ∈ h.data then
      match splitChar '-' h.data with
      | [ft, inch] =>
        match pyInt ft, pyInt inch with
        | some f, some i => some (f * 12 + i)
        | _, _ => none
      | _ => none
    else none

/-- Decimal digit character. Inputs above 9 do not occur. -/
def digitChar : Nat → Char
  | 0 => '0' | 1 => '1' | 2 => '2' | 3 => '3' | 4 => '4'
  | 5 => '5' | 6 => '6' | 7 => '7' | 8 => '8' | _ => '9'

/-- Fuelled decimal rendering of a natural number. -/
def natChars : Nat → Nat → PyStr
  | 0, _ => []
  | fuel + 1, n =>
    if n < 10 then [digitChar n]
    else natChars fuel (n / 10) ++ [digitChar (n % 10)]

/-- Decimal rendering of a natural number (model of Python `str`). -/
def natRepr (n : Nat) : PyStr := natChars (n + 1) n

/-- Decimal rendering of an integer (model of Python `str`). -/
def intRepr : Int → PyStr
  | Int.ofNat n => natRepr n
  | Int.negSucc n => '-' :: natRepr (n + 1)

/-- The apostrophe character used in the `F'I"` rendering. -/
def apos : Char := Char.ofNat 39

/-- The double-quote character used in the `F'I"` rendering. -/
def quoteC : Char := Char.ofNat 34

/-- Python `round`: round half to even. -/
def pyRound (q : ℚ) : Int :=
  let f := ⌊q⌋
  let r := q - (f : ℚ)
  if r < 1 / 2 then f
  else if 1 / 2 < r then f + 1
  else if f % 2 = 0 then f else f + 1

/-- `inches_to_ftin` from `p.py`: render a possibly-missing height as
`F'I"`, with `"NA"` for a missing (`None`/NaN) value. -/
def inches_to_ftin : Option ℚ → PyStr
  | none => ['N', 'A']
  | some x =>
    let n := pyRound x
    intRepr (Int.fdiv n 12) ++ apos :: (intRepr (Int.emod n 12) ++ [quoteC])

/-! ## Data model shared by both scripts -/

/-- Python float-or-NaN: `none` models NaN. -/
abbrev PyFloat := Option ℚ

/-- One entry of the static team directory (`teams.get_teams()`). -/
structure TeamInfo where
  id : Int
  full_name : String
deriving DecidableEq

/-- One raw row of a `CommonTeamRoster` frame, as used by `p.py`:
the player id and the raw `HEIGHT` cell (`none` = not a string). -/
structure RawEntry where
  player_id : Int
  height : Option String
deriving DecidableEq

/-- A deduplicated roster record of `p.py`: `{player_id, height_in}`. -/
structure PlayerRec where
  player_id : Int
  height_in : Int
deriving DecidableEq

/-- One row of the `PlayersSeasonTotals` frame: player id and minutes. -/
structure StatRow where
  player_id : Int
  min : ℚ
deriving DecidableEq

/-- One roster row of `AfterSeasonsCacheisFullRunThis.py`
(`LeagueDashPlayerBioStats`, after column selection and renaming). -/
structure BioRec where
  player_id : Int
  player_name : String
  team_id : Int
  height_in : Int
deriving DecidableEq

/-- Mean of a list of integer heights, as pandas `.mean()`:
NaN (`none`) on an empty selection. -/
def pyMean (l : List Int) : PyFloat :=
  if l.isEmpty then none else some ((l.sum : ℚ) / (l.length : ℚ))

/-- Maximum of a list of integer heights, as pandas `.max()`. -/
def listMax (l : List Int) : Option Int :=
  l.foldl (fun acc x => match acc with | none => some x | some m => some (max m x)) none

/-- Stable insertion of a stat row into a list sorted by decreasing minutes. -/
def insertMinDesc (r : StatRow) : List StatRow → List StatRow
  | [] => [r]
  | x :: xs => if x.min < r.min then r :: x :: xs else x :: insertMinDesc r xs

/-- `sort_values(by="MIN", ascending=False)` on the stats frame. -/
def sortByMinDesc (l : List StatRow) : List StatRow := l.foldr insertMinDesc []

/-- `.head(5)["PLAYER_ID"].tolist()` after the descending sort by minutes. -/
def top5Ids (l : List StatRow) : List Int :=
  ((sortByMinDesc l).take 5).map (·.player_id)

/-- The `CHAMPIONS` table of `p.py` (1980-2026). -/
def CHAMPIONS : Nat → Option String
  | 1980 => some "Los Angeles Lakers" | 1981 => some "Boston Celtics"
  | 1982 => some "Los Angeles Lakers" | 1983 => some "Philadelphia 76ers"
  | 1984 => some "Boston Celtics" | 1985 => some "Los Angeles Lakers"
  | 1986 => some "Boston Celtics" | 1987 => some "Los Angeles Lakers"
  | 1988 => some "Los Angeles Lakers" | 1989 => some "Detroit Pistons"
  | 1990 => some "Detroit Pistons" | 1991 => some "Chicago Bulls"
  | 1992 => some "Chicago Bulls" | 1993 => some "Chicago Bulls"
  | 1994 => some "Houston Rockets" | 1995 => some "Houston Rockets"
  | 1996 => some "Chicago Bulls" | 1997 => some "Chicago Bulls"
  | 1998 => some "Chicago Bulls" | 1999 => some "San Antonio Spurs"
  | 2000 => some "Los Angeles Lakers" | 2001 => some "Los Angeles Lakers"
  | 2002 => some "Los Angeles Lakers" | 2003 => some "San Antonio Spurs"
  | 2004 => some "Detroit Pistons" | 2005 => some "San Antonio Spurs"
  | 2006 => some "Miami Heat" | 2007 => some "San Antonio Spurs"
  | 2008 => some "Boston Celtics" | 2009 => some "Los Angeles Lakers"
  | 2010 => some "Los Angeles Lakers" | 2011 => some "Dallas Mavericks"
  | 2012 => some "Miami Heat" | 2013 => some "Miami Heat"
  | 2014 => some "San Antonio Spurs" | 2015 => some "Golden State Warriors"
  | 2016 => some "Cleveland Cavaliers" | 2017 => some "Golden State Warriors"
  | 2018 => some "Golden State Warriors" | 2019 => some "Toronto Raptors"
  | 2020 => some "Los Angeles Lakers" | 2021 => some "Milwaukee Bucks"
  | 2022 => some "Golden State Warriors" | 2023 => some "Denver Nuggets"
  | 2024 => some "Boston Celtics" | 2025 => some "Oklahoma City Thunder"
  | 2026 => some "Oklahoma City Thunder"
  | _ => none

/-- The `CHAMPIONS` table of `AfterSeasonsCacheisFullRunThis.py` (1980-2025). -/
def CHAMPIONS_A : Nat → Option String
  | 1980 => some "Los Angeles Lakers" | 1981 => some "Boston Celtics"
  | 1982 => some "Los Angeles Lakers" | 1983 => some "Philadelphia 76ers"
  | 1984 => some "Boston Celtics" | 1985 => some "Los Angeles Lakers"
  | 1986 => some "Boston Celtics" | 1987 => some "Los Angeles Lakers"
  | 1988 => some "Los Angeles Lakers" | 1989 => some "Detroit Pistons"
  | 1990 => some "Detroit Pistons" | 1991 => some "Chicago Bulls"
  | 1992 => some "Chicago Bulls" | 1993 => some "Chicago Bulls"
  | 1994 => some "Houston Rockets" | 1995 => some "Houston Rockets"
  | 1996 => some "Chicago Bulls" | 1997 => some "Chicago Bulls"
  | 1998 => some "Chicago Bulls" | 1999 => some "San Antonio Spurs"
  | 2000 => some "Los Angeles Lakers" | 2001 => some "Los Angeles Lakers"
  | 2002 => some "Los Angeles Lakers" | 2003 => some "San Antonio Spurs"
  | 2004 => some "Detroit Pistons" | 2005 => some "San Antonio Spurs"
  | 2006 => some "Miami Heat" | 2007 => some "San Antonio Spurs"
  | 2008 => some "Boston Celtics" | 2009 => some "Los Angeles Lakers"
  | 2010 => some "Los Angeles Lakers" | 2011 => some "Dallas Mavericks"
  | 2012 => some "Miami Heat" | 2013 => some "Miami Heat"
  | 2014 => some "San Antonio Spurs" | 2015 => some "Golden State Warriors"
  | 2016 => some "Cleveland Cavaliers" | 2017 => some "Golden State Warriors"
  | 2018 => some "Golden State Warriors" | 2019 => some "Toronto Raptors"
  | 2020 => some "Los Angeles Lakers" | 2021 => some "Milwaukee Bucks"
  | 2022 => some "Golden State Warriors" | 2023 => some "Denver Nuggets"
  | 2024 => some "Boston Celtics" | 2025 => some "Oklahoma City Thunder"
  | _ => none

/-! ## `p.py`: state, environment, getters -/

/-- Durable cache state of `p.py`: the `season_cache` and `champ_cache`
directories, keyed by end year. A champion-cache entry is the stored float,
with `none` for a stored `"nan"`. -/
structure PState where
  rosterCache : Nat → Option (List PlayerRec)
  champCache : Nat → Option PyFloat

/-- Network collaborators of `p.py`: the static team directory, the
per-(season, team) roster fetch (`none` = the fetch raised) and the
per-(season, team) champion stats fetch (`none` = the fetch raised). -/
structure PEnv where
  teamsList : List TeamInfo
  rosterOf : Nat → Int → Option (List RawEntry)
  statsOf : Nat → Int → Option (List StatRow)

/-- The pandas exception `pd.read_csv` raises on a blank file
(`EmptyDataError`), which `p.py` never catches on its cache-hit path. -/
inductive PdError where
  | emptyDataError
deriving DecidableEq

/-- Result of the `p.py` roster getter: the returned roster or the uncaught
pandas error, the post-state, the number of network collaborator calls
performed and the number of durable writes performed. -/
structure PRosterResult where
  value : Except PdError (List PlayerRec)
  state : PState
  netCalls : Nat
  writes : Nat

/-- Result of the `p.py` champion aggregator. -/
structure PChampResult where
  value : Option PyFloat
  state : PState
  netCalls : Nat
  writes : Nat

/-- Write the per-season roster file for `y`. -/
def writeRosterP (st : PState) (y : Nat) (v : List PlayerRec) : PState :=
  { rosterCache := fun k => if k = y then some v else st.rosterCache k,
    champCache := st.champCache }

/-- Write the champion-average scalar file for `y`. -/
def writeChampP (st : PState) (y : Nat) (v : PyFloat) : PState :=
  { rosterCache := st.rosterCache,
    champCache := fun k => if k = y then some v else st.champCache k }

/-- The row filter of the per-team loop in `get_season_players_heights`:
`hin = height_to_inches(row.get("HEIGHT")); if hin: rows.append(...)`.
Note the inclusion test is Python truthiness, so a parsed height of `0`
is dropped exactly like an unparseable one. -/
def keepEntry (e : RawEntry) : Option PlayerRec :=
  match height_to_inches e.height with
  | none => none
  | some v => if v = 0 then none else some ⟨e.player_id, v⟩

/-- Rows contributed by one team: a raised fetch (`none`) is swallowed and
contributes nothing (`except: pass`). -/
def teamRows (env : PEnv) (y : Nat) (t : TeamInfo) : List PlayerRec :=
  match env.rosterOf y t.id with
  | none => []
  | some entries => entries.filterMap keepEntry

/-- The accumulated `rows` list over all teams, in team order. -/
def fetchRows (env : PEnv) (y : Nat) : List PlayerRec :=
  env.teamsList.foldr (fun t acc => teamRows env y t ++ acc) []

/-- `drop_duplicates(subset=["player_id"])`: keep the first record for each
player id, preserving order. -/
def dedupAux (seen : List Int) : List PlayerRec → List PlayerRec
  | [] => []
  | r :: rs =>
    if r.player_id ∈ seen then dedupAux seen rs
    else r :: dedupAux (r.player_id :: seen) rs

/-- Deduplication by `player_id`, keeping the first occurrence. -/
def dedupBy (l : List PlayerRec) : List PlayerRec := dedupAux [] l

/-- `get_season_players_heights` from `p.py`. On a cache hit the file is
re-read with `pd.read_csv`: a stored nonempty roster is returned as-is with
no network call and no write, but a stored empty roster was written as a
blank file (`pd.DataFrame().to_csv`) and its `pd.read_csv` raises the
uncaught `EmptyDataError` instead of returning. On a miss every team is
fetched (one network call per team, failures swallowed), heights are parsed
and filtered by truthiness, the result is deduplicated
(`pd.DataFrame(rows).drop_duplicates(...) if rows else pd.DataFrame()`) and
written to the cache before returning. -/
def get_season_players_heights (st : PState) (env : PEnv) (y : Nat) : PRosterResult :=
  match st.rosterCache y with
  | some df =>
    if df.isEmpty then ⟨Except.error PdError.emptyDataError, st, 0, 0⟩
    else ⟨Except.ok df, st, 0, 0⟩
  | none =>
    let rows := fetchRows env y
    let df_unique := if rows.isEmpty then [] else dedupBy rows
    ⟨Except.ok df_unique, writeRosterP st y df_unique, env.teamsList.length, 1⟩

/-- Body of `get_champion_starters_height` after the cache check. -/
def champBodyP (st : PState) (env : PEnv) (y : Nat) (roster : List PlayerRec) :
    PChampResult :=
  match CHAMPIONS y with
  | none => ⟨none, st, 0, 0⟩
  | some champ_name =>
    if roster.isEmpty then ⟨none, st, 0, 0⟩
    else
      match (env.teamsList.filter (fun tm => tm.full_name == champ_name)).head? with
      | none => ⟨none, st, 0, 0⟩
      | some t =>
        match env.statsOf y t.id with
        | none => ⟨none, st, 1, 0⟩
        | some stats_df =>
          let top_5_ids := top5Ids stats_df
          let matched := roster.filter (fun r => top_5_ids.contains r.player_id)
          let avg_h := pyMean (matched.map (·.height_in))
          ⟨some avg_h, writeChampP st y avg_h, 1, 1⟩

/-- `get_champion_starters_height` from `p.py`. An existing cache file is
returned unconditionally (`return float(f.read())`), including a stored
`"nan"`. -/
def get_champion_starters_height (st : PState) (env : PEnv) (y : Nat)
    (roster : List PlayerRec) : PChampResult :=
  match st.champCache y with
  | some v => ⟨some v, st, 0, 0⟩
  | none => champBodyP st env y roster

/-- One summary row of `build_summary` in `p.py`. -/
structure SummaryRow where
  season_end_year : Nat
  avg_height_in : PyFloat
  champ_starter_avg : Option PyFloat
  tallest_height_in : Option Int
deriving DecidableEq

/-- Assembly of one summary row from the season's players and champion
average: `players["height_in"].mean() if not players.empty else None`, etc. -/
def mkRow (y : Nat) (players : List PlayerRec) (champ_avg : Option PyFloat) :
    SummaryRow :=
  { season_end_year := y,
    avg_height_in :=
      if players.isEmpty then none else pyMean (players.map (·.height_in)),
    champ_starter_avg := champ_avg,
    tallest_height_in :=
      if players.isEmpty then none else listMax (players.map (·.height_in)) }

/-- The year loop of `build_summary`. The first component is the produced
row list, or the uncaught pandas error if the roster getter raised at some
year (the rows accumulated so far are then lost, as in Python, since the
function never returns); the second component is the on-disk cache state,
whose writes persist even when the loop dies. -/
def buildGo (env : PEnv) : PState → List Nat → Except PdError (List SummaryRow) × PState
  | st, [] => (Except.ok [], st)
  | st, y :: ys =>
    let pr := get_season_players_heights st env y
    match pr.value with
    | Except.error e => (Except.error e, pr.state)
    | Except.ok players =>
      let ch := get_champion_starters_height pr.state env y players
      let rest := buildGo env ch.state ys
      match rest.1 with
      | Except.error e => (Except.error e, rest.2)
      | Except.ok rows => (Except.ok (mkRow y players ch.value :: rows), rest.2)

/-- `build_summary` from `p.py`: one row per year of
`range(start_year, current_year + 1)`, in order — unless the roster getter
raises at some year, in which case the whole call raises. -/
def build_summary (st : PState) (env : PEnv) (start_year current_year : Nat) :
    Except PdError (List SummaryRow) × PState :=
  buildGo env st (List.range' start_year (current_year + 1 - start_year))

/-! ## `AfterSeasonsCacheisFullRunThis.py`: state, environment, getters -/

/-- Durable cache state of `AfterSeasonsCacheisFullRunThis.py`. -/
structure AState where
  rosterCache : Nat → Option (List BioRec)
  champCache : Nat → Option PyFloat

/-- Outcome of one `LeagueDashPlayerBioStats` attempt. -/
inductive AOutcome where
  | ok (rows : List BioRec)
  | timeout
  | err
deriving DecidableEq

/-- Outcome of one `TeamPlayerDashboard` attempt. -/
inductive SOutcome where
  | ok (rows : List StatRow)
  | timeout
  | err
deriving DecidableEq

/-- Network collaborators of `AfterSeasonsCacheisFullRunThis.py`: the static
team directory and the per-(season, attempt) fetch outcomes. -/
structure AEnv where
  teamsList : List TeamInfo
  bioAttempts : Nat → Nat → AOutcome
  statsAttempts : Nat → Nat → SOutcome

/-- Result of the `AfterSeasonsCacheisFullRunThis.py` roster getter. -/
structure ARosterResult where
  value : List BioRec
  state : AState
  netCalls : Nat
  writes : Nat

/-- Result of the `AfterSeasonsCacheisFullRunThis.py` champion aggregator. -/
structure AChampResult where
  value : Option PyFloat
  state : AState
  netCalls : Nat
  writes : Nat

/-- Write the per-season roster file for `y`. -/
def writeRosterA (st : AState) (y : Nat) (v : List BioRec) : AState :=
  { rosterCache := fun k => if k = y then some v else st.rosterCache k,
    champCache := st.champCache }

/-- Write the champion-average scalar file for `y`. -/
def writeChampA (st : AState) (y : Nat) (v : PyFloat) : AState :=
  { rosterCache := st.rosterCache,
    champCache := fun k => if k = y then some v else st.champCache k }

/-- The retry loop of `get_season_roster`: on success the frame is written
and returned; a `ReadTimeout` sleeps and retries; any other exception breaks
the loop; an exhausted loop returns an empty frame. Neither failure path
writes the cache. The second counter is the network calls made so far. -/
def afterFetchLoop (st : AState) (env : AEnv) (y : Nat) :
    Nat → Nat → ARosterResult
  | 0, calls => ⟨[], st, calls, 0⟩
  | fuel + 1, calls =>
    match env.bioAttempts y calls with
    | AOutcome.ok df => ⟨df, writeRosterA st y df, calls + 1, 1⟩
    | AOutcome.timeout => afterFetchLoop st env y fuel (calls + 1)
    | AOutcome.err => ⟨[], st, calls + 1, 0⟩

/-- `get_season_roster` from `AfterSeasonsCacheisFullRunThis.py` (the source
default `retries=3` is passed explicitly by callers here). A cached roster is
returned only if it has more than 100 rows (`if len(df) > 100: return df`);
otherwise the season is fetched again. -/
def get_season_roster (st : AState) (env : AEnv) (y : Nat) (retries : Nat) :
    ARosterResult :=
  match st.rosterCache y with
  | some df =>
    if 100 < df.length then ⟨df, st, 0, 0⟩
    else afterFetchLoop st env y retries 0
  | none => afterFetchLoop st env y retries 0

/-- The retry loop of `get_champ_avg`: a successful attempt computes the
top-5-by-minutes average, writes it (NaN included) and returns it; a
`ReadTimeout` sleeps and retries; any other exception is caught by the outer
handler which returns `None`; an exhausted loop falls off the function,
returning `None` without writing. -/
def afterChampLoop (st : AState) (env : AEnv) (y : Nat) (roster : List BioRec) :
    Nat → Nat → AChampResult
  | 0, calls => ⟨none, st, calls, 0⟩
  | fuel + 1, calls =>
    match env.statsAttempts y calls with
    | SOutcome.ok stats_df =>
      let top_5_ids := top5Ids stats_df
      let matched := roster.filter (fun r => top_5_ids.contains r.player_id)
      let avg_h := pyMean (matched.map (·.height_in))
      ⟨some avg_h, writeChampA st y avg_h, calls + 1, 1⟩
    | SOutcome.timeout => afterChampLoop st env y roster fuel (calls + 1)
    | SOutcome.err => ⟨none, st, calls + 1, 0⟩

/-- Body of `get_champ_avg` after the cache check. -/
def champBodyA (st : AState) (env : AEnv) (y : Nat) (roster : List BioRec)
    (retries : Nat) : AChampResult :=
  match CHAMPIONS_A y with
  | none => ⟨none, st, 0, 0⟩
  | some champ_name =>
    if roster.isEmpty then ⟨none, st, 0, 0⟩
    else
      match (env.teamsList.filter (fun tm => tm.full_name == champ_name)).head? with
      | none => ⟨none, st, 0, 0⟩
      | some _t => afterChampLoop st env y roster retries 0

/-- `get_champ_avg` from `AfterSeasonsCacheisFullRunThis.py` (the source
default `retries=2` is passed explicitly by callers here). A cached value is
returned only when it is not the `'nan'` sentinel
(`if val != 'nan': return float(val)`); a stored sentinel falls through to
recomputation. -/
def get_champ_avg (st : AState) (env : AEnv) (y : Nat) (roster : List BioRec)
    (retries : Nat) : AChampResult :=
  match st.champCache y with
  | some (some q) => ⟨some (some q), st, 0, 0⟩
  | some none => champBodyA st env y roster retries
  | none => champBodyA st env y roster retries

/-- One output row of `main` in `AfterSeasonsCacheisFullRunThis.py`. -/
structure ARow where
  year : Nat
  league_avg : PyFloat
  champ_avg : Option PyFloat
deriving DecidableEq

/-- The year loop of `main`: a season whose roster came back empty appends
no row (`if not roster.empty: results.append(...)`). -/
def mainGo (env : AEnv) : AState → List Nat → List ARow × AState
  | st, [] => ([], st)
  | st, y :: ys =>
    let r := get_season_roster st env y 3
    let ch := get_champ_avg r.state env y r.value 2
    let rest := mainGo env ch.state ys
    if r.value.isEmpty then (rest.1, rest.2)
    else (⟨y, pyMean (r.value.map (·.height_in)), ch.value⟩ :: rest.1, rest.2)

/-- `main` from `AfterSeasonsCacheisFullRunThis.py` (named `mainRun` here
because Lean reserves `main`): the fixed year range `range(1980, 2026)`. -/
def mainRun (st : AState) (env : AEnv) : List ARow × AState :=
  mainGo env st (List.range' 1980 46)

/-! ## Lemmas about the height parser -/

lemma splitChar_ne_nil (sep : Char) : ∀ s : PyStr, splitChar sep s ≠ []
  | [] => by simp [splitChar]
  | c :: cs => by
    by_cases hc : c = sep
    · simp [splitChar, hc]
    · simp only [splitChar, if_neg hc]
      cases h : splitChar sep cs with
      | nil => simp [consHead]
      | cons p ps => simp [consHead]

lemma splitChar_no_sep (sep : Char) : ∀ s : PyStr, sep ∉ s → splitChar sep s = [s]
  | [], _ => rfl
  | c :: cs, h => by
    simp only [List.mem_cons, not_or] at h
    have hc : ¬c = sep := fun e => h.1 (Eq.symm e)
    have ih := splitChar_no_sep sep cs h.2
    simp [splitChar, if_neg hc, ih, consHead]

lemma splitChar_append (sep : Char) : ∀ (a b : PyStr), sep ∉ a →
    splitChar sep (a ++ sep :: b) = a :: splitChar sep b
  | [], b, _ => by simp [splitChar]
  | c :: a', b, h => by
    simp only [List.mem_cons, not_or] at h
    have hc : ¬c = sep := fun e => h.1 (Eq.symm e)
    have ih := splitChar_append sep a' b h.2
    simp [splitChar, if_neg hc, ih, consHead]

lemma length_splitChar (sep : Char) : ∀ s : PyStr,
    (splitChar sep s).length = s.count sep + 1
  | [] => by simp [splitChar]
  | c :: cs => by
    have ih := length_splitChar sep cs
    by_cases hc : c = sep
    · subst hc
      simp [splitChar, List.count_cons, ih]
    · have hb : (c == sep) = false := beq_eq_false_iff_ne.mpr hc
      cases h : splitChar sep cs with
      | nil => exact absurd h (splitChar_ne_nil sep cs)
      | cons p ps =>
        rw [h] at ih
        simp [splitChar, if_neg hc, h, consHead, List.count_cons, hb] at ih ⊢
        omega

lemma splitChar_pieces (sep : Char) : ∀ (s : PyStr) (p : PyStr),
    p ∈ splitChar sep s → sep ∉ p
  | [], p, hp => by
    simp [splitChar] at hp
    subst hp; simp
  | c :: cs, p, hp => by
    by_cases hc : c = sep
    · simp only [splitChar, if_pos hc] at hp
      rcases List.mem_cons.mp hp with rfl | hp'
      · simp
      · exact splitChar_pieces sep cs p hp'
    · cases h : splitChar sep cs with
      | nil => exact absurd h (splitChar_ne_nil sep cs)
      | cons q qs =>
        simp only [splitChar, if_neg hc, h, consHead] at hp
        have hq : sep ∉ q := splitChar_pieces sep cs q (h ▸ List.mem_cons_self q qs)
        rcases List.mem_cons.mp hp with rfl | hp'
        · simp only [List.mem_cons, not_or]
          exact ⟨fun e => hc e.symm, hq⟩
        · exact splitChar_pieces sep cs p (h ▸ List.mem_cons_of_mem q hp')

lemma digit_not_space {c : Char} (h : isDigitC c = true) : isPySpace c = false := by
  simp only [isDigitC, Bool.and_eq_true, decide_eq_true_eq] at h
  simp only [isPySpace, Bool.or_eq_false_iff, beq_eq_false_iff_ne]
  refine ⟨⟨⟨?_, ?_⟩, ?_⟩, ?_⟩ <;> rintro rfl <;> exact absurd h (by decide)

lemma digit_ne_plus {c : Char} (h : isDigitC c = true) : c ≠ '+' := by
  rintro rfl; exact absurd h (by decide)

lemma digit_ne_dash {c : Char} (h : isDigitC c = true) : c ≠ '-' := by
  rintro rfl; exact absurd h (by decide)

lemma mem_of_mem_dropWhile {p : Char → Bool} :
    ∀ {l : PyStr} {a : Char}, a ∈ l.dropWhile p → a ∈ l := by
  intro l
  induction l with
  | nil => intro a h; simp at h
  | cons c cs ih =>
    intro a h
    rw [List.dropWhile_cons] at h
    by_cases hp : p c = true
    · rw [if_pos hp] at h
      exact List.mem_cons_of_mem c (ih h)
    · rw [if_neg hp] at h
      exact h

lemma mem_of_mem_pyStrip {s : PyStr} {a : Char} (h : a ∈ pyStrip s) : a ∈ s := by
  unfold pyStrip at h
  rw [List.mem_reverse] at h
  have h2 := mem_of_mem_dropWhile h
  rw [List.mem_reverse] at h2
  exact mem_of_mem_dropWhile h2

lemma pyStrip_digits {s : PyStr} (h : ∀ c ∈ s, isDigitC c = true) : pyStrip s = s := by
  unfold pyStrip
  have h1 : s.dropWhile isPySpace = s := by
    cases s with
    | nil => rfl
    | cons c cs =>
      rw [List.dropWhile_cons, if_neg]
      simp [digit_not_space (h c (List.mem_cons_self c cs))]
  rw [h1]
  have h2 : s.reverse.dropWhile isPySpace = s.reverse := by
    cases hr : s.reverse with
    | nil => rfl
    | cons d ds =>
      have hd : d ∈ s := by
        rw [← List.mem_reverse, hr]
        exact List.mem_cons_self d ds
      rw [List.dropWhile_cons, if_neg]
      simp [digit_not_space (h d hd)]
  rw [h2, List.reverse_reverse]

lemma parseDigits_of {s : PyStr} (h1 : s ≠ [])
    (h2 : ∀ c ∈ s, isDigitC c = true) : parseDigits s = some (digitsVal s) := by
  unfold parseDigits
  rw [if_pos]
  rw [Bool.and_eq_true, List.all_eq_true]
  constructor
  · cases s with
    | nil => exact absurd rfl h1
    | cons c cs => simp
  · exact h2

lemma pyInt_digits {s : PyStr} (h1 : s ≠ [])
    (h2 : ∀ c ∈ s, isDigitC c = true) :
    pyInt s = some ((digitsVal s : ℕ) : ℤ) := by
  unfold pyInt
  rw [pyStrip_digits h2]
  cases s with
  | nil => exact absurd rfl h1
  | cons c cs =>
    have hc := h2 c (List.mem_cons_self c cs)
    simp only [pyIntCore]
    rw [if_neg (digit_ne_plus hc), if_neg (digit_ne_dash hc),
      parseDigits_of h1 h2]
    rfl

lemma digitChar_isDigit {m : Nat} (h : m < 10) : isDigitC (digitChar m) = true := by
  interval_cases m <;> decide

lemma digitChar_toNat {m : Nat} (h : m < 10) : (digitChar m).toNat = 48 + m := by
  interval_cases m <;> decide

lemma digitsVal_append_singleton (xs : PyStr) (c : Char) :
    digitsVal (xs ++ [c]) = 10 * digitsVal xs + (c.toNat - 48) := by
  simp [digitsVal, List.foldl_append]

lemma natChars_spec : ∀ (fuel n : Nat), n < fuel →
    natChars fuel n ≠ [] ∧ (∀ c ∈ natChars fuel n, isDigitC c = true) ∧
      digitsVal (natChars fuel n) = n
  | 0, n, h => absurd h (by omega)
  | fuel + 1, n, h => by
    by_cases h10 : n < 10
    · refine ⟨by simp [natChars, h10], ?_, ?_⟩
      · intro c hc
        simp [natChars, h10] at hc
        subst hc
        exact digitChar_isDigit h10
      · simp [natChars, h10, digitsVal, digitChar_toNat h10]
    · have hlt : n / 10 < fuel := by omega
      obtain ⟨ih1, ih2, ih3⟩ := natChars_spec fuel (n / 10) hlt
      simp only [natChars, if_neg h10]
      refine ⟨by simp, ?_, ?_⟩
      · intro c hc
        rcases List.mem_append.mp hc with hm | hm
        · exact ih2 c hm
        · simp at hm
          subst hm
          exact digitChar_isDigit (by omega)
      · rw [digitsVal_append_singleton, ih3, digitChar_toNat (by omega : n % 10 < 10)]
        omega

lemma natRepr_spec (n : Nat) :
    natRepr n ≠ [] ∧ (∀ c ∈ natRepr n, isDigitC c = true) ∧
      digitsVal (natRepr n) = n :=
  natChars_spec (n + 1) n (by omega)

lemma pyInt_natRepr (n : Nat) : pyInt (natRepr n) = some ((n : ℕ) : ℤ) := by
  obtain ⟨h1, h2, h3⟩ := natRepr_spec n
  rw [pyInt_digits h1 h2, h3]

lemma dash_not_mem_natRepr (n : Nat) : '-' ∉ natRepr n := by
  intro hm
  exact digit_ne_dash ((natRepr_spec n).2.1 '-' hm) rfl

lemma pyIntCore_nonneg {s : PyStr} (h : '-' ∉ s) {z : ℤ}
    (hz : pyIntCore s = some z) : 0 ≤ z := by
  cases s with
  | nil => simp [pyIntCore] at hz
  | cons c cs =>
    have hcd : c ≠ '-' := by
      intro e
      exact h (e ▸ List.mem_cons_self c cs)
    simp only [pyIntCore] at hz
    by_cases hp : c = '+'
    · rw [if_pos hp] at hz
      rcases Option.map_eq_some'.mp hz with ⟨m, _, hm2⟩
      subst hm2
      simp
    · rw [if_neg hp, if_neg hcd] at hz
      rcases Option.map_eq_some'.mp hz with ⟨m, _, hm2⟩
      subst hm2
      simp

lemma pyInt_nonneg {s : PyStr} (h : '-' ∉ s) {z : ℤ}
    (hz : pyInt s = some z) : 0 ≤ z :=
  pyIntCore_nonneg (fun hm => h (mem_of_mem_pyStrip hm)) hz

lemma height_some_parts (a b : PyStr) (ha : '-' ∉ a) (hb : '-' ∉ b) :
    height_to_inches (some ⟨a ++ '-' :: b⟩) =
      (match pyInt a, pyInt b with
        | some f, some i => some (f * 12 + i)
        | _, _ => none) := by
  have hd : '-' ∈ (String.mk (a ++ '-' :: b)).data := by simp
  simp only [height_to_inches, if_pos hd]
  have hsp : splitChar '-' (String.mk (a ++ '-' :: b)).data = [a, b] := by
    show splitChar '-' (a ++ '-' :: b) = [a, b]
    rw [splitChar_append '-' a b ha, splitChar_no_sep '-' b hb]
  rw [hsp]

lemma height_wellformed {a b : PyStr} {f i : ℤ} (ha : '-' ∉ a) (hb : '-' ∉ b)
    (hfa : pyInt a = some f) (hib : pyInt b = some i) :
    height_to_inches (some ⟨a ++ '-' :: b⟩) = some (f * 12 + i) := by
  rw [height_some_parts a b ha hb, hfa, hib]

lemma height_malformed {a b : PyStr} (ha : '-' ∉ a) (hb : '-' ∉ b)
    (hbad : pyInt a = none ∨ pyInt b = none) :
    height_to_inches (some ⟨a ++ '-' :: b⟩) = none := by
  rw [height_some_parts a b ha hb]
  rcases hbad with hn | hn
  · rw [hn]
  · rw [hn]
    cases pyInt a <;> rfl

lemma height_no_dash (s : String) (h : '-' ∉ s.data) :
    height_to_inches (some s) = none := by
  simp [height_to_inches, h]

lemma height_many_dashes (s : String) (h : 2 ≤ s.data.count '-') :
    height_to_inches (some s) = none := by
  have hm : '-' ∈ s.data := List.count_pos_iff.mp (by omega)
  have hlen := length_splitChar '-' s.data
  simp only [height_to_inches, if_pos hm]
  cases hsp : splitChar '-' s.data with
  | nil => rfl
  | cons p t1 =>
    cases t1 with
    | nil => rfl
    | cons q t2 =>
      cases t2 with
      | cons r t3 => rfl
      | nil =>
        rw [hsp] at hlen
        simp only [List.length_cons, List.length_nil] at hlen
        omega

lemma height_to_inches_nonneg {h : Option String} {v : ℤ}
    (hv : height_to_inches h = some v) : 0 ≤ v := by
  cases h with
  | none => simp [height_to_inches] at hv
  | some s =>
    simp only [height_to_inches] at hv
    by_cases hm : '-' ∈ s.data
    · rw [if_pos hm] at hv
      cases hsp : splitChar '-' s.data with
      | nil => rw [hsp] at hv; exact absurd hv (by simp)
      | cons p t1 =>
        cases t1 with
        | nil => rw [hsp] at hv; exact absurd hv (by simp)
        | cons q t2 =>
          cases t2 with
          | cons r t3 => rw [hsp] at hv; exact absurd hv (by simp)
          | nil =>
            rw [hsp] at hv
            have hv2 : (match pyInt p, pyInt q with
                | some f, some i => some (f * 12 + i)
                | _, _ => none) = some v := hv
            have hp : '-' ∉ p :=
              splitChar_pieces '-' s.data p (hsp ▸ List.mem_cons_self _ _)
            have hq : '-' ∉ q := by
              refine splitChar_pieces '-' s.data q (hsp ▸ ?_)
              exact List.mem_cons_of_mem _ (List.mem_cons_self _ _)
            cases hfa : pyInt p with
            | none => rw [hfa] at hv2; exact absurd hv2 (by simp)
            | some f =>
              cases hib : pyInt q with
              | none => rw [hfa, hib] at hv2; exact absurd hv2 (by simp)
              | some i =>
                rw [hfa, hib] at hv2
                simp only [Option.some.injEq] at hv2
                have hf := pyInt_nonneg hp hfa
                have hi := pyInt_nonneg hq hib
                omega
    · rw [if_neg hm] at hv
      exact absurd hv (by simp)

/-! ## Lemmas about the height formatter -/

lemma pyRound_intCast (m : ℤ) : pyRound ((m : ℚ)) = m := by
  simp only [pyRound, Int.floor_intCast, sub_self]
  rw [if_pos (by norm_num)]

lemma int_fdiv_cast12 (a : ℕ) : Int.fdiv (a : ℤ) (12 : ℤ) = ((a / 12 : ℕ) : ℤ) := by
  have h := Int.ofNat_fdiv a 12
  exact_mod_cast h.symm

lemma int_emod_cast12 (a : ℕ) : Int.emod (a : ℤ) (12 : ℤ) = ((a % 12 : ℕ) : ℤ) := by
  show (a : ℤ) % (12 : ℤ) = ((a % 12 : ℕ) : ℤ)
  exact_mod_cast (Int.natCast_mod a 12).symm

lemma intRepr_natCast (n : ℕ) : intRepr ((n : ℕ) : ℤ) = natRepr n := rfl

lemma round_trip_general (ft inch : ℕ) :
    inches_to_ftin ((height_to_inches (some ⟨natRepr ft ++ '-' :: natRepr inch⟩)).map
        (fun z : ℤ => (z : ℚ))) =
      natRepr ((ft * 12 + inch) / 12) ++
        apos :: (natRepr ((ft * 12 + inch) % 12) ++ [quoteC]) := by
  have hparse : height_to_inches (some ⟨natRepr ft ++ '-' :: natRepr inch⟩) =
      some ((ft : ℤ) * 12 + (inch : ℤ)) :=
    height_wellformed (dash_not_mem_natRepr ft) (dash_not_mem_natRepr inch)
      (pyInt_natRepr ft) (pyInt_natRepr inch)
  rw [hparse]
  have hz : ((ft : ℤ) * 12 + (inch : ℤ)) = ((ft * 12 + inch : ℕ) : ℤ) := by
    push_cast; ring
  rw [Option.map_some', hz]
  simp only [inches_to_ftin]
  rw [pyRound_intCast, int_fdiv_cast12, int_emod_cast12, intRepr_natCast,
    intRepr_natCast]

/-! ## Lemmas about deduplication and the `p.py` roster getter -/

lemma dedupAux_subset : ∀ (l : List PlayerRec) (seen : List Int) (r : PlayerRec),
    r ∈ dedupAux seen l → r ∈ l
  | [], _, _, h => absurd h (by simp [dedupAux])
  | x :: xs, seen, r, h => by
    by_cases hx : x.player_id ∈ seen
    · simp only [dedupAux, if_pos hx] at h
      exact List.mem_cons_of_mem _ (dedupAux_subset xs seen r h)
    · simp only [dedupAux, if_neg hx] at h
      rcases List.mem_cons.mp h with rfl | h'
      · exact List.mem_cons_self _ _
      · exact List.mem_cons_of_mem _ (dedupAux_subset xs _ r h')

lemma mem_pid_dedupAux : ∀ (l : List PlayerRec) (seen : List Int) (pid : Int),
    pid ∈ (dedupAux seen l).map (·.player_id) ↔
      pid ∈ l.map (·.player_id) ∧ pid ∉ seen
  | [], seen, pid => by simp [dedupAux]
  | x :: xs, seen, pid => by
    by_cases hx : x.player_id ∈ seen
    · rw [show dedupAux seen (x :: xs) = dedupAux seen xs by
        simp [dedupAux, if_pos hx]]
      rw [mem_pid_dedupAux xs seen pid]
      simp only [List.map_cons, List.mem_cons]
      constructor
      · rintro ⟨h1, h2⟩
        exact ⟨Or.inr h1, h2⟩
      · rintro ⟨h1 | h1, h2⟩
        · exact absurd (h1 ▸ hx) h2
        · exact ⟨h1, h2⟩
    · rw [show dedupAux seen (x :: xs) = x :: dedupAux (x.player_id :: seen) xs by
        simp [dedupAux, if_neg hx]]
      simp only [List.map_cons, List.mem_cons]
      rw [mem_pid_dedupAux xs (x.player_id :: seen) pid]
      constructor
      · rintro (h1 | ⟨h1, h2⟩)
        · subst h1
          exact ⟨Or.inl rfl, hx⟩
        · simp only [List.mem_cons, not_or] at h2
          exact ⟨Or.inr h1, h2.2⟩
      · rintro ⟨h1 | h1, h2⟩
        · exact Or.inl h1
        · by_cases hpx : pid = x.player_id
          · exact Or.inl hpx
          · refine Or.inr ⟨h1, ?_⟩
            simp only [List.mem_cons, not_or]
            exact ⟨hpx, h2⟩

lemma nodup_pid_dedupAux : ∀ (l : List PlayerRec) (seen : List Int),
    ((dedupAux seen l).map (·.player_id)).Nodup
  | [], seen => by simp [dedupAux]
  | x :: xs, seen => by
    by_cases hx : x.player_id ∈ seen
    · rw [show dedupAux seen (x :: xs) = dedupAux seen xs by
        simp [dedupAux, if_pos hx]]
      exact nodup_pid_dedupAux xs seen
    · rw [show dedupAux seen (x :: xs) = x :: dedupAux (x.player_id :: seen) xs by
        simp [dedupAux, if_neg hx]]
      rw [List.map_cons, List.nodup_cons]
      refine ⟨?_, nodup_pid_dedupAux xs _⟩
      intro hmem
      have hm := (mem_pid_dedupAux xs (x.player_id :: seen) x.player_id).mp hmem
      exact hm.2 (List.mem_cons_self _ _)

lemma keepEntry_pos {e : RawEntry} {r : PlayerRec} (h : keepEntry e = some r) :
    0 < r.height_in := by
  unfold keepEntry at h
  cases hh : height_to_inches e.height with
  | none => rw [hh] at h; exact absurd h (by simp)
  | some v =>
    rw [hh] at h
    have h2 : (if v = 0 then none else some (⟨e.player_id, v⟩ : PlayerRec)) =
        some r := h
    by_cases hv : v = 0
    · rw [if_pos hv] at h2
      exact absurd h2 (by simp)
    · rw [if_neg hv] at h2
      have h0 := height_to_inches_nonneg hh
      have hr : r = ⟨e.player_id, v⟩ := by
        injection h2 with h'
        exact h'.symm
      subst hr
      simp only
      omega

lemma mem_fetchRows_pos {env : PEnv} {y : Nat} {r : PlayerRec}
    (h : r ∈ fetchRows env y) : 0 < r.height_in := by
  unfold fetchRows at h
  revert h
  generalize env.teamsList = ts
  induction ts with
  | nil => intro h; simp at h
  | cons t ts ih =>
    intro h
    simp only [List.foldr_cons] at h
    rcases List.mem_append.mp h with hm | hm
    · unfold teamRows at hm
      cases ho : env.rosterOf y t.id with
      | none => rw [ho] at hm; simp at hm
      | some entries =>
        rw [ho] at hm
        rcases List.mem_filterMap.mp hm with ⟨e, _, he⟩
        exact keepEntry_pos he
    · exact ih hm

/-- The value the `p.py` getter returns, as a function of the cache entry. -/
def rosterValue (c : Option (List PlayerRec)) (env : PEnv) (y : Nat) :
    List PlayerRec :=
  match c with
  | some df => df
  | none =>
    let rows := fetchRows env y
    if rows.isEmpty then [] else dedupBy rows

lemma getter_hit_nonempty {st : PState} {env : PEnv} {y : Nat}
    {df : List PlayerRec} (h : st.rosterCache y = some df)
    (hne : df.isEmpty = false) :
    get_season_players_heights st env y = ⟨Except.ok df, st, 0, 0⟩ := by
  simp [get_season_players_heights, h, hne]

lemma getter_hit_empty {st : PState} {env : PEnv} {y : Nat}
    (h : st.rosterCache y = some []) :
    get_season_players_heights st env y =
      ⟨Except.error PdError.emptyDataError, st, 0, 0⟩ := by
  simp [get_season_players_heights, h]

lemma getter_miss {st : PState} {env : PEnv} {y : Nat}
    (h : st.rosterCache y = none) :
    get_season_players_heights st env y =
      ⟨Except.ok (rosterValue none env y),
        writeRosterP st y (rosterValue none env y),
        env.teamsList.length, 1⟩ := by
  simp [get_season_players_heights, rosterValue, h]

lemma getter_value_ok {st : PState} {env : PEnv} {y : Nat}
    (h : st.rosterCache y ≠ some []) :
    (get_season_players_heights st env y).value =
      Except.ok (rosterValue (st.rosterCache y) env y) := by
  cases hc : st.rosterCache y with
  | none => rw [getter_miss hc]
  | some df =>
    cases df with
    | nil => exact absurd hc h
    | cons a l =>
      rw [getter_hit_nonempty hc rfl]
      rfl

lemma getter_champCache (st : PState) (env : PEnv) (y : Nat) :
    (get_season_players_heights st env y).state.champCache = st.champCache := by
  cases h : st.rosterCache y with
  | none => simp [get_season_players_heights, writeRosterP, h]
  | some df => cases df <;> simp [get_season_players_heights, h]

lemma getter_rosterCache_frame (st : PState) (env : PEnv) (y y' : Nat)
    (hne : y' ≠ y) :
    (get_season_players_heights st env y).state.rosterCache y' = st.rosterCache y' := by
  cases h : st.rosterCache y with
  | none => simp [get_season_players_heights, writeRosterP, h, hne]
  | some df => cases df <;> simp [get_season_players_heights, h]

lemma writeRosterP_self (st : PState) (y : Nat) (v : List PlayerRec) :
    (writeRosterP st y v).rosterCache y = some v := by
  simp [writeRosterP]

/-! ## Lemmas about the `p.py` champion aggregator and summary builder -/

lemma champ_hit {st : PState} {env : PEnv} {y : Nat} {roster : List PlayerRec}
    {v : PyFloat} (h : st.champCache y = some v) :
    get_champion_starters_height st env y roster = ⟨some v, st, 0, 0⟩ := by
  simp [get_champion_starters_height, h]

lemma champ_miss {st : PState} {env : PEnv} {y : Nat} {roster : List PlayerRec}
    (h : st.champCache y = none) :
    get_champion_starters_height st env y roster = champBodyP st env y roster := by
  simp [get_champion_starters_height, h]

lemma champBodyP_no_champ {st : PState} {env : PEnv} {y : Nat}
    {roster : List PlayerRec} (h : CHAMPIONS y = none) :
    champBodyP st env y roster = ⟨none, st, 0, 0⟩ := by
  simp [champBodyP, h]

lemma champBodyP_empty {st : PState} {env : PEnv} {y : Nat}
    {roster : List PlayerRec} (h : roster = []) :
    champBodyP st env y roster = ⟨none, st, 0, 0⟩ := by
  subst h
  cases hch : CHAMPIONS y <;> simp [champBodyP, hch]

lemma champ_short_circuit {st : PState} {env : PEnv} {y : Nat}
    {roster : List PlayerRec} (hc : st.champCache y = none)
    (h : CHAMPIONS y = none ∨ roster = []) :
    get_champion_starters_height st env y roster = ⟨none, st, 0, 0⟩ := by
  rw [champ_miss hc]
  rcases h with h | h
  · exact champBodyP_no_champ h
  · exact champBodyP_empty h

lemma champBodyP_rosterCache (st : PState) (env : PEnv) (y : Nat)
    (roster : List PlayerRec) :
    (champBodyP st env y roster).state.rosterCache = st.rosterCache := by
  unfold champBodyP
  split
  · rfl
  · split
    · rfl
    · split
      · rfl
      · split
        · rfl
        · simp [writeChampP]

lemma champBodyP_champCache_frame (st : PState) (env : PEnv) (y : Nat)
    (roster : List PlayerRec) (y' : Nat) (hne : y' ≠ y) :
    (champBodyP st env y roster).state.champCache y' = st.champCache y' := by
  unfold champBodyP
  split
  · rfl
  · split
    · rfl
    · split
      · rfl
      · split
        · rfl
        · simp [writeChampP, hne]

lemma champ_rosterCache (st : PState) (env : PEnv) (y : Nat)
    (roster : List PlayerRec) :
    (get_champion_starters_height st env y roster).state.rosterCache =
      st.rosterCache := by
  cases h : st.champCache y with
  | some v => rw [champ_hit h]
  | none => rw [champ_miss h]; exact champBodyP_rosterCache st env y roster

lemma champ_champCache_frame (st : PState) (env : PEnv) (y : Nat)
    (roster : List PlayerRec) (y' : Nat) (hne : y' ≠ y) :
    (get_champion_starters_height st env y roster).state.champCache y' =
      st.champCache y' := by
  cases h : st.champCache y with
  | some v => rw [champ_hit h]
  | none => rw [champ_miss h]; exact champBodyP_champCache_frame st env y roster y' hne

lemma champBodyP_compute {st : PState} {env : PEnv} {y : Nat}
    {roster : List PlayerRec} {champ_name : String} {t : TeamInfo}
    {stats_df : List StatRow}
    (hch : CHAMPIONS y = some champ_name) (hr : roster.isEmpty = false)
    (ht : (env.teamsList.filter (fun tm => tm.full_name == champ_name)).head? =
      some t)
    (hs : env.statsOf y t.id = some stats_df) :
    champBodyP st env y roster =
      ⟨some (pyMean ((roster.filter
            (fun r => (top5Ids stats_df).contains r.player_id)).map (·.height_in))),
        writeChampP st y (pyMean ((roster.filter
            (fun r => (top5Ids stats_df).contains r.player_id)).map (·.height_in))),
        1, 1⟩ := by
  simp [champBodyP, hch, hr, ht, hs]

lemma mkRow_empty (y : Nat) : mkRow y [] none = ⟨y, none, none, none⟩ := rfl

lemma buildGo_spec (env : PEnv) : ∀ (ys : List Nat) (st : PState),
    ys.Nodup → (∀ y ∈ ys, st.champCache y = none) →
    (∀ y ∈ ys, st.rosterCache y ≠ some []) →
    ∃ rows : List SummaryRow,
      (buildGo env st ys).1 = Except.ok rows ∧
      rows.map (·.season_end_year) = ys ∧
      (∀ y ∈ ys, rosterValue (st.rosterCache y) env y = [] →
        (⟨y, none, none, none⟩ : SummaryRow) ∈ rows)
  | [], st, _, _, _ => ⟨[], rfl, rfl, by simp⟩
  | y :: ys, st, hnd, hcc, hner => by
    rw [List.nodup_cons] at hnd
    have hccy : st.champCache y = none := hcc y (List.mem_cons_self y ys)
    have hney : st.rosterCache y ≠ some [] := hner y (List.mem_cons_self y ys)
    have hval : (get_season_players_heights st env y).value =
        Except.ok (rosterValue (st.rosterCache y) env y) := getter_value_ok hney
    have hprc : (get_season_players_heights st env y).state.champCache =
        st.champCache := getter_champCache st env y
    have hst2r : ∀ y' ∈ ys,
        (get_champion_starters_height (get_season_players_heights st env y).state
            env y (rosterValue (st.rosterCache y) env y)).state.rosterCache y' =
          st.rosterCache y' := by
      intro y' hy'
      have hne : y' ≠ y := fun e => hnd.1 (e ▸ hy')
      rw [champ_rosterCache]
      exact getter_rosterCache_frame st env y y' hne
    have hst2c : ∀ y' ∈ ys,
        (get_champion_starters_height (get_season_players_heights st env y).state
            env y (rosterValue (st.rosterCache y) env y)).state.champCache y' =
          none := by
      intro y' hy'
      have hne : y' ≠ y := fun e => hnd.1 (e ▸ hy')
      rw [champ_champCache_frame _ env y _ y' hne, hprc]
      exact hcc y' (List.mem_cons_of_mem _ hy')
    have hner2 : ∀ y' ∈ ys,
        (get_champion_starters_height (get_season_players_heights st env y).state
            env y (rosterValue (st.rosterCache y) env y)).state.rosterCache y' ≠
          some [] := by
      intro y' hy'
      rw [hst2r y' hy']
      exact hner y' (List.mem_cons_of_mem _ hy')
    obtain ⟨rows, ih1, ih2, ih3⟩ := buildGo_spec env ys
      (get_champion_starters_height (get_season_players_heights st env y).state
        env y (rosterValue (st.rosterCache y) env y)).state hnd.2 hst2c hner2
    refine ⟨mkRow y (rosterValue (st.rosterCache y) env y)
        (get_champion_starters_height (get_season_players_heights st env y).state
          env y (rosterValue (st.rosterCache y) env y)).value :: rows,
      ?_, ?_, ?_⟩
    · show (buildGo env st (y :: ys)).1 = _
      simp only [buildGo, hval, ih1]
    · rw [List.map_cons, ih2]
      rfl
    · intro y0 hy0 hempty
      rcases List.mem_cons.mp hy0 with rfl | hy0'
      · have hchv : get_champion_starters_height
            (get_season_players_heights st env y0).state env y0
            (rosterValue (st.rosterCache y0) env y0) =
            ⟨none, (get_season_players_heights st env y0).state, 0, 0⟩ := by
          apply champ_short_circuit
          · rw [hprc]
            exact hccy
          · exact Or.inr hempty
        have hrow : mkRow y0 (rosterValue (st.rosterCache y0) env y0)
            (get_champion_starters_height
              (get_season_players_heights st env y0).state env y0
              (rosterValue (st.rosterCache y0) env y0)).value =
            ⟨y0, none, none, none⟩ := by
          rw [hchv, hempty]
          exact mkRow_empty y0
        rw [hrow]
        exact List.mem_cons_self _ _
      · have hv' : rosterValue ((get_champion_starters_height
            (get_season_players_heights st env y).state env y
            (rosterValue (st.rosterCache y) env y)).state.rosterCache y0)
            env y0 = [] := by
          rw [hst2r y0 hy0']
          exact hempty
        exact List.mem_cons_of_mem _ (ih3 y0 hy0' hv')

/-! ## Lemmas about the `AfterSeasonsCacheisFullRunThis.py` aggregator -/

lemma champA_hit {st : AState} {env : AEnv} {y : Nat} {roster : List BioRec}
    {retries : Nat} {q : ℚ} (h : st.champCache y = some (some q)) :
    get_champ_avg st env y roster retries = ⟨some (some q), st, 0, 0⟩ := by
  simp [get_champ_avg, h]

lemma champA_nan_recomputes {st : AState} {env : AEnv} {y : Nat}
    {roster : List BioRec} {retries : Nat} (h : st.champCache y = some none) :
    get_champ_avg st env y roster retries = champBodyA st env y roster retries := by
  simp [get_champ_avg, h]

lemma champA_miss {st : AState} {env : AEnv} {y : Nat} {roster : List BioRec}
    {retries : Nat} (h : st.champCache y = none) :
    get_champ_avg st env y roster retries = champBodyA st env y roster retries := by
  simp [get_champ_avg, h]

lemma champBodyA_no_champ {st : AState} {env : AEnv} {y : Nat}
    {roster : List BioRec} {retries : Nat} (h : CHAMPIONS_A y = none) :
    champBodyA st env y roster retries = ⟨none, st, 0, 0⟩ := by
  simp [champBodyA, h]

lemma champBodyA_empty {st : AState} {env : AEnv} {y : Nat}
    {roster : List BioRec} {retries : Nat} (h : roster = []) :
    champBodyA st env y roster retries = ⟨none, st, 0, 0⟩ := by
  subst h
  cases hch : CHAMPIONS_A y <;> simp [champBodyA, hch]

/-! ## Claim theorems -/

/-- Claim C7: the height parser is total — in this embedding it is a total
function into `Option` — and it returns the null sentinel for every malformed
input (non-string input, the empty string, strings without a `-`, strings with
two or more `-`, and strings whose components are not parseable integers),
while a well-formed `<feet>-<inches>` string yields `feet * 12 + inches`. -/
theorem height_parser_total_spec :
    height_to_inches none = none ∧
    height_to_inches (some "") = none ∧
    (∀ s : String, '-' ∉ s.data → height_to_inches (some s) = none) ∧
    (∀ s : String, 2 ≤ s.data.count '-' → height_to_inches (some s) = none) ∧
    (∀ a b : PyStr, '-' ∉ a → '-' ∉ b → (pyInt a = none ∨ pyInt b = none) →
      height_to_inches (some ⟨a ++ '-' :: b⟩) = none) ∧
    (∀ (a b : PyStr) (f i : ℤ), '-' ∉ a → '-' ∉ b → pyInt a = some f →
      pyInt b = some i →
      height_to_inches (some ⟨a ++ '-' :: b⟩) = some (f * 12 + i)) :=
  ⟨rfl, rfl, height_no_dash, height_many_dashes,
    fun _ _ ha hb hbad => height_malformed ha hb hbad,
    fun _ _ _ _ ha hb hfa hib => height_wellformed ha hb hfa hib⟩

/-- Witness for C7 at concrete inputs. -/
theorem height_parser_total_spec_witness :
    height_to_inches (some "6-2") = some 74 ∧
    height_to_inches (some "62") = none ∧
    height_to_inches (some "6-2-3") = none ∧
    height_to_inches (some "a-b") = none := by
  refine ⟨?_, ?_, ?_, ?_⟩
  · have h := height_parser_total_spec.2.2.2.2.2 ['6'] ['2'] 6 2 (by decide)
      (by decide) (by decide) (by decide)
    exact h.trans (by decide)
  · exact height_parser_total_spec.2.2.1 "62" (by decide)
  · exact height_parser_total_spec.2.2.2.1 "6-2-3" (by decide)
  · exact height_parser_total_spec.2.2.2.2.1 ['a'] ['b'] (by decide) (by decide)
      (Or.inl (by decide))

/-- Claim C8: formatting the parsed value of a `"F-I"` height string
reproduces the `F'I"` rendering of the same total number of inches; when the
inches component is already canonical (`I < 12`) the output is literally
`F'I"`. Parsed integers are passed to the formatter through the
int-to-float conversion of the source (`float(x)`). -/
theorem format_parse_round_trip (ft inch : Nat) :
    (inches_to_ftin ((height_to_inches
          (some ⟨natRepr ft ++ '-' :: natRepr inch⟩)).map (fun z : ℤ => (z : ℚ))) =
      natRepr ((ft * 12 + inch) / 12) ++
        apos :: (natRepr ((ft * 12 + inch) % 12) ++ [quoteC])) ∧
    (inch < 12 →
      inches_to_ftin ((height_to_inches
          (some ⟨natRepr ft ++ '-' :: natRepr inch⟩)).map (fun z : ℤ => (z : ℚ))) =
        natRepr ft ++ apos :: (natRepr inch ++ [quoteC])) := by
  refine ⟨round_trip_general ft inch, fun h => ?_⟩
  rw [round_trip_general ft inch]
  have h1 : (ft * 12 + inch) / 12 = ft := by omega
  have h2 : (ft * 12 + inch) % 12 = inch := by omega
  rw [h1, h2]

/-- Witness for C8 at `"6-2"`. -/
theorem format_parse_round_trip_witness :
    inches_to_ftin ((height_to_inches
        (some ⟨natRepr 6 ++ '-' :: natRepr 2⟩)).map (fun z : ℤ => (z : ℚ))) =
      natRepr 6 ++ apos :: (natRepr 2 ++ [quoteC]) :=
  (format_parse_round_trip 6 2).2 (by decide)

/-- Claim C9: on a cache miss, the roster produced by
`get_season_players_heights` has pairwise-distinct player ids, and every
player id occurring in the accumulated raw rows survives with exactly one
record. -/
theorem roster_dedup_unique (st : PState) (env : PEnv) (y : Nat)
    (h : st.rosterCache y = none) (df : List PlayerRec)
    (hdf : (get_season_players_heights st env y).value = Except.ok df) :
    ((df.map (·.player_id)).Nodup) ∧
    (∀ pid : Int, pid ∈ (fetchRows env y).map (·.player_id) →
      ((df.map (·.player_id)).count pid = 1)) := by
  have hv : df = rosterValue none env y := by
    rw [getter_miss h] at hdf
    injection hdf with h2
    exact h2.symm
  rw [hv]
  by_cases he : (fetchRows env y).isEmpty = true
  · have hnil : fetchRows env y = [] := by
      cases hfe : fetchRows env y with
      | nil => rfl
      | cons a l => rw [hfe] at he; simp at he
    constructor
    · simp [rosterValue, he]
    · intro pid hp
      rw [hnil] at hp
      simp at hp
  · have hval : rosterValue none env y = dedupBy (fetchRows env y) := by
      simp only [rosterValue]
      rw [if_neg he]
    rw [hval]
    refine ⟨nodup_pid_dedupAux _ _, ?_⟩
    intro pid hp
    refine List.count_eq_one_of_mem (nodup_pid_dedupAux _ _) ?_
    exact (mem_pid_dedupAux _ [] pid).mpr ⟨hp, by simp⟩

/-- Witness for C9: the same player id listed by two teams yields exactly one
record. -/
theorem roster_dedup_unique_witness :
    ((get_season_players_heights ⟨fun _ => none, fun _ => none⟩
        ⟨[⟨1, "X"⟩, ⟨2, "Y"⟩],
          fun _ _ => some [⟨7, some "6-2"⟩], fun _ _ => none⟩ 1980).value =
      Except.ok [⟨7, 74⟩]) ∧
    ((([⟨7, 74⟩] : List PlayerRec).map (·.player_id)).count 7 = 1) :=
  ⟨rfl,
   (roster_dedup_unique ⟨fun _ => none, fun _ => none⟩
     ⟨[⟨1, "X"⟩, ⟨2, "Y"⟩], fun _ _ => some [⟨7, some "6-2"⟩], fun _ _ => none⟩
     1980 rfl [⟨7, 74⟩] rfl).2 7 (by decide)⟩

/-- Claim C10: the per-team row builder keeps an entry only if its parsed
height is truthy, so a height parsing to exactly `0` (e.g. `"0-0"`) is
excluded just like an unparseable one, and every record of a freshly built
roster has a strictly positive height. -/
theorem zero_height_excluded :
    (∀ e : RawEntry, height_to_inches e.height = some 0 → keepEntry e = none) ∧
    (∀ e : RawEntry, height_to_inches e.height = none → keepEntry e = none) ∧
    (∀ (st : PState) (env : PEnv) (y : Nat), st.rosterCache y = none →
      ∀ df, (get_season_players_heights st env y).value = Except.ok df →
      ∀ r ∈ df, 0 < r.height_in) := by
  refine ⟨?_, ?_, ?_⟩
  · intro e he
    simp [keepEntry, he]
  · intro e he
    simp [keepEntry, he]
  · intro st env y h df hdf r hr
    have hv : df = rosterValue none env y := by
      rw [getter_miss h] at hdf
      injection hdf with h2
      exact h2.symm
    rw [hv] at hr
    have hmem : r ∈ fetchRows env y := by
      by_cases he : (fetchRows env y).isEmpty = true
      · simp [rosterValue, he] at hr
      · simp only [rosterValue] at hr
        rw [if_neg he] at hr
        exact dedupAux_subset _ [] r hr
    exact mem_fetchRows_pos hmem

/-- Witness for C10: a `"0-0"` entry and an unparseable entry are both
dropped. -/
theorem zero_height_excluded_witness :
    keepEntry ⟨1, some "0-0"⟩ = none ∧ keepEntry ⟨2, some "tall"⟩ = none :=
  ⟨zero_height_excluded.1 ⟨1, some "0-0"⟩ (by decide),
   zero_height_excluded.2.1 ⟨2, some "tall"⟩ (by decide)⟩

/-- Claim C3 (code bug): on a miss `get_season_players_heights` does persist
the deduplicated roster — even an empty one — under the end-year key before
returning (exactly one durable write, shown at the failing input where every
team fetch fails for 1980), but the persisted empty roster is NOT a usable
cache hit: the later call for the same end year re-reads the blank file that
`pd.DataFrame().to_csv` wrote and `pd.read_csv` (`src/p.py:62`) raises the
uncaught `EmptyDataError` instead of returning the empty roster, contradicting
the claim's "reads it back (without raising)". -/
theorem empty_roster_cache_poisons :
    ((get_season_players_heights ⟨fun _ => none, fun _ => none⟩
        ⟨[], fun _ _ => none, fun _ _ => none⟩ 1980).value = Except.ok []) ∧
    ((get_season_players_heights ⟨fun _ => none, fun _ => none⟩
        ⟨[], fun _ _ => none, fun _ _ => none⟩ 1980).writes = 1) ∧
    ((get_season_players_heights ⟨fun _ => none, fun _ => none⟩
        ⟨[], fun _ _ => none, fun _ _ => none⟩ 1980).state.rosterCache 1980 =
      some []) ∧
    ((get_season_players_heights
        (get_season_players_heights ⟨fun _ => none, fun _ => none⟩
          ⟨[], fun _ _ => none, fun _ _ => none⟩ 1980).state
        ⟨[], fun _ _ => none, fun _ _ => none⟩ 1980).value =
      Except.error PdError.emptyDataError) ∧
    ((get_season_players_heights
        (get_season_players_heights ⟨fun _ => none, fun _ => none⟩
          ⟨[], fun _ _ => none, fun _ _ => none⟩ 1980).state
        ⟨[], fun _ _ => none, fun _ _ => none⟩ 1980).netCalls = 0) :=
  ⟨rfl, rfl, rfl, rfl, rfl⟩

/-- Claim C1 (amended): for `p.py`, whenever a first call to the roster
getter returned a nonempty roster, a second call for the same end year
returns the identical roster with zero network calls and zero further
writes; after a first call that cached an EMPTY roster the second call
instead raises `EmptyDataError` (see the C3 code-bug theorem). For
`AfterSeasonsCacheisFullRunThis.py` the idempotence holds only when the
cached roster has more than 100 records. -/
theorem roster_cache_idempotent :
    (∀ (st : PState) (env : PEnv) (y : Nat) (df : List PlayerRec),
      (get_season_players_heights st env y).value = Except.ok df → df ≠ [] →
      get_season_players_heights (get_season_players_heights st env y).state env y =
        ⟨Except.ok df, (get_season_players_heights st env y).state, 0, 0⟩) ∧
    (∀ (st : AState) (env : AEnv) (y : Nat) (df : List BioRec),
      st.rosterCache y = some df → 100 < df.length →
      get_season_roster st env y 3 = ⟨df, st, 0, 0⟩) := by
  constructor
  · intro st env y df hok hne
    have hne2 : df.isEmpty = false := by
      cases df with
      | nil => exact absurd rfl hne
      | cons a l => rfl
    cases h : st.rosterCache y with
    | some df0 =>
      cases df0 with
      | nil =>
        rw [getter_hit_empty h] at hok
        exact absurd hok (by simp)
      | cons a l =>
        rw [getter_hit_nonempty h rfl] at hok ⊢
        have hdf : df = a :: l := by
          injection hok with h2
          exact h2.symm
        subst hdf
        exact getter_hit_nonempty h rfl
    | none =>
      rw [getter_miss h] at hok ⊢
      have hdf : df = rosterValue none env y := by
        injection hok with h2
        exact h2.symm
      subst hdf
      exact getter_hit_nonempty (writeRosterP_self st y _) hne2
  · intro st env y df h hlen
    simp [get_season_roster, h, hlen]

/-- Witness for C1 at concrete inputs for both scripts: a first call that
fetched and cached the 1-record roster `[(7, 74)]`, and a cached 101-record
roster in the After variant. -/
theorem roster_cache_idempotent_witness :
    (get_season_players_heights
        (get_season_players_heights ⟨fun _ => none, fun _ => none⟩
          ⟨[⟨1, "X"⟩], fun _ _ => some [⟨7, some "6-2"⟩], fun _ _ => none⟩
          1980).state
        ⟨[⟨1, "X"⟩], fun _ _ => some [⟨7, some "6-2"⟩], fun _ _ => none⟩ 1980 =
      ⟨Except.ok [⟨7, 74⟩],
        (get_season_players_heights ⟨fun _ => none, fun _ => none⟩
          ⟨[⟨1, "X"⟩], fun _ _ => some [⟨7, some "6-2"⟩], fun _ _ => none⟩
          1980).state,
        0, 0⟩) ∧
    (get_season_roster
        ⟨fun _ => some (List.replicate 101 ⟨1, "A", 2, 80⟩), fun _ => none⟩
        ⟨[], fun _ _ => AOutcome.err, fun _ _ => SOutcome.err⟩ 1980 3 =
      ⟨List.replicate 101 ⟨1, "A", 2, 80⟩,
        ⟨fun _ => some (List.replicate 101 ⟨1, "A", 2, 80⟩), fun _ => none⟩,
        0, 0⟩) := by
  constructor
  · exact roster_cache_idempotent.1 ⟨fun _ => none, fun _ => none⟩
      ⟨[⟨1, "X"⟩], fun _ _ => some [⟨7, some "6-2"⟩], fun _ _ => none⟩
      1980 [⟨7, 74⟩] rfl (by decide)
  · exact roster_cache_idempotent.2 _ _ 1980 _ rfl (by decide)

/-- Claim C1 counterexample: in `AfterSeasonsCacheisFullRunThis.py`, after a
first successful populate that stored a 1-record roster, the second call for
the same end year performs another network call and another durable write
(`if len(df) > 100` rejects the cached roster), refuting "zero additional
network collaborator calls" and "at most one durable write". -/
theorem after_roster_cache_refetches :
    ((get_season_roster
        (get_season_roster ⟨fun _ => none, fun _ => none⟩
          ⟨[], fun _ _ => AOutcome.ok [⟨1, "A", 2, 80⟩], fun _ _ => SOutcome.err⟩
          1980 3).state
        ⟨[], fun _ _ => AOutcome.ok [⟨1, "A", 2, 80⟩], fun _ _ => SOutcome.err⟩
        1980 3).netCalls = 1) ∧
    ((get_season_roster
        (get_season_roster ⟨fun _ => none, fun _ => none⟩
          ⟨[], fun _ _ => AOutcome.ok [⟨1, "A", 2, 80⟩], fun _ _ => SOutcome.err⟩
          1980 3).state
        ⟨[], fun _ _ => AOutcome.ok [⟨1, "A", 2, 80⟩], fun _ _ => SOutcome.err⟩
        1980 3).writes = 1) :=
  ⟨rfl, rfl⟩

/-- Claim C2 (amended): in `p.py`, provided no champion scalar is cached for
the years of the range and no season of the range has a CACHED empty roster
(a cached empty roster makes the getter — and hence `build_summary` — raise
`EmptyDataError` at that year, producing no rows), `build_summary` returns
one row per season in order, and a season whose roster comes back empty
yields the row with null `avg_height_in`, `champ_starter_avg` and
`tallest_height_in`. (In `AfterSeasonsCacheisFullRunThis.py`, by contrast,
such a season is omitted; see the counterexample.) -/
theorem build_summary_rows_complete (st : PState) (env : PEnv)
    (start_year current_year : Nat)
    (hcc : ∀ y, st.champCache y = none)
    (hner : ∀ y, start_year ≤ y → y ≤ current_year →
      st.rosterCache y ≠ some []) :
    ∃ rows : List SummaryRow,
      (build_summary st env start_year current_year).1 = Except.ok rows ∧
      rows.map (·.season_end_year) =
        List.range' start_year (current_year + 1 - start_year) ∧
      (∀ y, start_year ≤ y → y ≤ current_year →
        rosterValue (st.rosterCache y) env y = [] →
        (⟨y, none, none, none⟩ : SummaryRow) ∈ rows) := by
  have hnd : (List.range' start_year (current_year + 1 - start_year)).Nodup :=
    List.nodup_range' _ _
  have hner' : ∀ y ∈ List.range' start_year (current_year + 1 - start_year),
      st.rosterCache y ≠ some [] := by
    intro y hy
    rw [List.mem_range'_1] at hy
    exact hner y (by omega) (by omega)
  obtain ⟨rows, h1, h2, h3⟩ := buildGo_spec env
    (List.range' start_year (current_year + 1 - start_year)) st hnd
    (fun y _ => hcc y) hner'
  refine ⟨rows, h1, h2, ?_⟩
  intro y hy1 hy2 hempty
  have hy : y ∈ List.range' start_year (current_year + 1 - start_year) := by
    rw [List.mem_range'_1]
    omega
  exact h3 y hy hempty

/-- Witness for C2: with every team fetch failing and empty caches, the
single requested season still contributes the all-null row. -/
theorem build_summary_rows_complete_witness :
    ∃ rows : List SummaryRow,
      (build_summary ⟨fun _ => none, fun _ => none⟩
        ⟨[], fun _ _ => none, fun _ _ => none⟩ 1980 1980).1 = Except.ok rows ∧
      (⟨1980, none, none, none⟩ : SummaryRow) ∈ rows := by
  obtain ⟨rows, h1, _, h3⟩ := build_summary_rows_complete
    ⟨fun _ => none, fun _ => none⟩ ⟨[], fun _ _ => none, fun _ _ => none⟩
    1980 1980 (fun _ => rfl)
    (fun y _ _ => fun h => Option.noConfusion h)
  exact ⟨rows, h1, h3 1980 (by omega) (by omega) rfl⟩

/-- Claim C2 counterexample: in `AfterSeasonsCacheisFullRunThis.py`, with
every roster fetch failing, every season of the processed range 1980-2025 has
an empty roster and `main` appends no row at all — seasons with empty rosters
are omitted rather than contributing null-valued rows. -/
theorem after_main_omits_empty_rows :
    (mainRun ⟨fun _ => none, fun _ => none⟩
      ⟨[], fun _ _ => AOutcome.err, fun _ _ => SOutcome.err⟩).1 = [] := by
  decide

/-- Claim C4 (amended): `get_champ_avg` of `AfterSeasonsCacheisFullRunThis.py`
returns a stored non-sentinel float immediately from cache and treats a
stored `'nan'` sentinel exactly like a miss (it recomputes). In `p.py`,
however, `get_champion_starters_height` returns whatever is stored —
including the NaN sentinel — as an immediate cache hit; see the
counterexample. -/
theorem champ_cache_nan_sentinel :
    (∀ (st : AState) (env : AEnv) (y : Nat) (roster : List BioRec)
      (retries : Nat) (q : ℚ), st.champCache y = some (some q) →
      get_champ_avg st env y roster retries = ⟨some (some q), st, 0, 0⟩) ∧
    (∀ (st : AState) (env : AEnv) (y : Nat) (roster : List BioRec)
      (retries : Nat), st.champCache y = some none →
      get_champ_avg st env y roster retries =
        champBodyA st env y roster retries) ∧
    (∀ (st : AState) (env : AEnv) (y : Nat) (roster : List BioRec)
      (retries : Nat), st.champCache y = none →
      get_champ_avg st env y roster retries =
        champBodyA st env y roster retries) :=
  ⟨fun _ _ _ _ _ _ h => champA_hit h,
   fun _ _ _ _ _ h => champA_nan_recomputes h,
   fun _ _ _ _ _ h => champA_miss h⟩

/-- Witness for C4 at concrete cache states. -/
theorem champ_cache_nan_sentinel_witness :
    (get_champ_avg
        ⟨fun _ => none, fun k => if k = 1980 then some (some 83) else none⟩
        ⟨[], fun _ _ => AOutcome.err, fun _ _ => SOutcome.err⟩ 1980 [] 2 =
      ⟨some (some 83),
        ⟨fun _ => none, fun k => if k = 1980 then some (some 83) else none⟩,
        0, 0⟩) ∧
    (get_champ_avg
        ⟨fun _ => none, fun k => if k = 1980 then some none else none⟩
        ⟨[], fun _ _ => AOutcome.err, fun _ _ => SOutcome.err⟩ 1980 [] 2 =
      champBodyA ⟨fun _ => none, fun k => if k = 1980 then some none else none⟩
        ⟨[], fun _ _ => AOutcome.err, fun _ _ => SOutcome.err⟩ 1980 [] 2) :=
  ⟨champ_cache_nan_sentinel.1 _ _ 1980 [] 2 83 rfl,
   champ_cache_nan_sentinel.2.1 _ _ 1980 [] 2 rfl⟩

/-- Claim C4 counterexample: `p.py` returns a stored NaN sentinel as an
immediate cache hit (result is the sentinel, zero network calls), refuting
"the aggregator does not return that sentinel as a cache hit". -/
theorem p_champ_cache_returns_sentinel :
    ((get_champion_starters_height
        ⟨fun _ => none, fun k => if k = 1980 then some none else none⟩
        ⟨[], fun _ _ => none, fun _ _ => none⟩ 1980 []).value = some none) ∧
    ((get_champion_starters_height
        ⟨fun _ => none, fun k => if k = 1980 then some none else none⟩
        ⟨[], fun _ _ => none, fun _ _ => none⟩ 1980 []).netCalls = 0) :=
  ⟨rfl, rfl⟩

/-- Claim C5: on a scalar-cache miss with an existing champion, a nonempty
roster, a resolved team and a successful stats fetch, the champion-starter
average of `p.py` is the mean of `height_in` over exactly the roster records
whose `player_id` is among the top-5-by-minutes ids: with k ≥ 1 matched the
value is their arithmetic mean, and with zero matched it is the NaN
sentinel. -/
theorem champ_avg_mean_of_matched (st : PState) (env : PEnv) (y : Nat)
    (roster : List PlayerRec) (champ_name : String) (t : TeamInfo)
    (stats_df : List StatRow)
    (hc : st.champCache y = none)
    (hch : CHAMPIONS y = some champ_name)
    (hr : roster.isEmpty = false)
    (ht : (env.teamsList.filter (fun tm => tm.full_name == champ_name)).head? =
      some t)
    (hs : env.statsOf y t.id = some stats_df) :
    ((get_champion_starters_height st env y roster).value =
      some (pyMean ((roster.filter
        (fun r => (top5Ids stats_df).contains r.player_id)).map (·.height_in)))) ∧
    ((roster.filter (fun r => (top5Ids stats_df).contains r.player_id)) = [] →
      (get_champion_starters_height st env y roster).value = some none) ∧
    (∀ matched : List PlayerRec,
      matched = roster.filter (fun r => (top5Ids stats_df).contains r.player_id) →
      matched ≠ [] →
      (get_champion_starters_height st env y roster).value =
        some (some ((((matched.map (·.height_in)).sum : ℤ) : ℚ) /
          ((matched.map (·.height_in)).length : ℚ)))) := by
  have hval : (get_champion_starters_height st env y roster).value =
      some (pyMean ((roster.filter
        (fun r => (top5Ids stats_df).contains r.player_id)).map (·.height_in))) := by
    rw [champ_miss hc, champBodyP_compute hch hr ht hs]
  refine ⟨hval, ?_, ?_⟩
  · intro hempty
    rw [hval, hempty]
    rfl
  · intro matched hm hne
    have hne2 : (matched.map (·.height_in)).isEmpty = false := by
      cases matched with
      | nil => exact absurd rfl hne
      | cons a l => rfl
    rw [hval, ← hm]
    unfold pyMean
    rw [hne2, if_neg Bool.false_ne_true]

/-- Witness for C5: the 1980 Lakers scenario with all five top-minutes ids in
the roster at heights 85, 84, 83, 82, 81 inches gives 83.0. -/
theorem champ_avg_mean_of_matched_witness :
    (get_champion_starters_height ⟨fun _ => none, fun _ => none⟩
        ⟨[⟨1610612747, "Los Angeles Lakers"⟩], fun _ _ => none,
          fun _ _ => some [⟨1, 3000⟩, ⟨2, 2900⟩, ⟨3, 2800⟩, ⟨4, 2700⟩,
            ⟨5, 2600⟩, ⟨6, 100⟩]⟩
        1980
        [⟨1, 85⟩, ⟨2, 84⟩, ⟨3, 83⟩, ⟨4, 82⟩, ⟨5, 81⟩, ⟨6, 60⟩]).value =
      some (some 83) := by
  have h := (champ_avg_mean_of_matched ⟨fun _ => none, fun _ => none⟩
      ⟨[⟨1610612747, "Los Angeles Lakers"⟩], fun _ _ => none,
        fun _ _ => some [⟨1, 3000⟩, ⟨2, 2900⟩, ⟨3, 2800⟩, ⟨4, 2700⟩,
          ⟨5, 2600⟩, ⟨6, 100⟩]⟩
      1980
      [⟨1, 85⟩, ⟨2, 84⟩, ⟨3, 83⟩, ⟨4, 82⟩, ⟨5, 81⟩, ⟨6, 60⟩]
      "Los Angeles Lakers" ⟨1610612747, "Los Angeles Lakers"⟩
      [⟨1, 3000⟩, ⟨2, 2900⟩, ⟨3, 2800⟩, ⟨4, 2700⟩, ⟨5, 2600⟩, ⟨6, 100⟩]
      rfl rfl rfl rfl rfl).1
  rw [h]
  have hflt : (([⟨1, 85⟩, ⟨2, 84⟩, ⟨3, 83⟩, ⟨4, 82⟩, ⟨5, 81⟩, ⟨6, 60⟩] :
      List PlayerRec).filter
        (fun r => (top5Ids [⟨1, 3000⟩, ⟨2, 2900⟩, ⟨3, 2800⟩, ⟨4, 2700⟩,
          ⟨5, 2600⟩, ⟨6, 100⟩]).contains r.player_id)).map (·.height_in) =
      [85, 84, 83, 82, 81] := by decide
  rw [hflt]
  simp [pyMean, List.sum_cons, List.sum_nil]
  norm_num

/-- Claim C6: with no cached champion scalar for the year (in the After
variant, also with a cached `'nan'` sentinel), a year without a champion
table entry, or an empty roster, makes the aggregator of either script
return `None` with no network call, no write to the scalar cache and the
state unchanged (and the model is a total function, so nothing is raised). -/
theorem champ_null_short_circuit :
    (∀ (st : PState) (env : PEnv) (y : Nat) (roster : List PlayerRec),
      st.champCache y = none → (CHAMPIONS y = none ∨ roster = []) →
      get_champion_starters_height st env y roster = ⟨none, st, 0, 0⟩) ∧
    (∀ (st : AState) (env : AEnv) (y : Nat) (roster : List BioRec)
      (retries : Nat),
      (st.champCache y = none ∨ st.champCache y = some none) →
      (CHAMPIONS_A y = none ∨ roster = []) →
      get_champ_avg st env y roster retries = ⟨none, st, 0, 0⟩) := by
  constructor
  · intro st env y roster hc h
    exact champ_short_circuit hc h
  · intro st env y roster retries hc h
    have hb : get_champ_avg st env y roster retries =
        champBodyA st env y roster retries := by
      rcases hc with hc | hc
      · exact champA_miss hc
      · exact champA_nan_recomputes hc
    rw [hb]
    rcases h with h | h
    · exact champBodyA_no_champ h
    · exact champBodyA_empty h

/-- Witness for C6: 1979 is outside both champion tables; an empty roster in
1980 short-circuits likewise. -/
theorem champ_null_short_circuit_witness :
    (get_champion_starters_height ⟨fun _ => none, fun _ => none⟩
        ⟨[], fun _ _ => none, fun _ _ => none⟩ 1979 [⟨1, 80⟩] =
      ⟨none, ⟨fun _ => none, fun _ => none⟩, 0, 0⟩) ∧
    (get_champ_avg ⟨fun _ => none, fun _ => none⟩
        ⟨[], fun _ _ => AOutcome.err, fun _ _ => SOutcome.err⟩ 1980 [] 2 =
      ⟨none, ⟨fun _ => none, fun _ => none⟩, 0, 0⟩) :=
  ⟨champ_null_short_circuit.1 _ _ 1979 [⟨1, 80⟩] rfl (Or.inl rfl),
   champ_null_short_circuit.2 _ _ 1980 [] 2 (Or.inl rfl) (Or.inr rfl)⟩
